import Mathlib

/-!
Shallow embedding of the video-generation relay server (`server.js`).

JavaScript strings are modelled as Lean `String`; `null`/`undefined` values
are modelled as `Option` with `none`.  JavaScript truthiness on strings
(`""`, `null`, `undefined` are falsy) is captured by `strTruthy`/`optTruthy`.
String functions are implemented over `String.data` (lists of characters) so
that all definitions reduce inside the kernel; `Char.toLower`/`Char.toUpper`
model JavaScript case mapping on the ASCII range, which is the only range the
program compares against (status vocabularies, size/model identifiers).
-/

instance {ε α : Type} [DecidableEq ε] [DecidableEq α] : DecidableEq (Except ε α) := fun x y =>
  match x, y with
  | .ok a, .ok b => if h : a = b then isTrue (by rw [h]) else isFalse (by simp [h])
  | .error a, .error b => if h : a = b then isTrue (by rw [h]) else isFalse (by simp [h])
  | .ok _, .error _ => isFalse (by simp)
  | .error _, .ok _ => isFalse (by simp)

/-- JS truthiness of a string: only the empty string is falsy. -/
def strTruthy (s : String) : Bool := !s.isEmpty

/-- JS truthiness of a possibly-null string. -/
def optTruthy : Option String → Bool
  | none => false
  | some s => strTruthy s

/-- JS `a || b` on possibly-null strings: yields `b` (whole) when `a` is falsy. -/
def jsOr (a b : Option String) : Option String := if optTruthy a then a else b

/-- JS `a || b` where `b` is a string literal: yields `b` when `a` is falsy. -/
def jsOrS (a : Option String) (b : String) : String :=
  match a with
  | some s => if s.isEmpty then b else s
  | none => b

/-- JS `String(x)` on a possibly-undefined string value. -/
def jsStringOfOpt : Option String → String
  | some s => s
  | none => "undefined"

/-- Lowercasing, char by char (JS `.toLowerCase()` restricted to ASCII case mapping). -/
def lowerS (s : String) : String := String.mk (s.data.map Char.toLower)

/-- Uppercasing, char by char (JS `.toUpperCase()` restricted to ASCII case mapping). -/
def upperS (s : String) : String := String.mk (s.data.map Char.toUpper)

/-- JS `.trim()`: strip leading and trailing whitespace. -/
def trimS (s : String) : String :=
  String.mk (((s.data.dropWhile Char.isWhitespace).reverse.dropWhile Char.isWhitespace).reverse)

/-- JS `.endsWith(suf)`. -/
def endsWithS (s suf : String) : Bool := List.isSuffixOf suf.data s.data

/-- JS `Number(s)` on the canonical integer strings that reach it in this
program (the coerced Sora `seconds` strings); `none` models a non-finite
result, under which the caller skips the assignment. -/
def jsNumberInt (s : String) : Option Int :=
  match s.data with
  | '-' :: ds => if ds ≠ [] ∧ ds.all Char.isDigit
      then some (-(ds.foldl (fun n c => 10 * n + (c.toNat - 48)) 0 : Int)) else none
  | ds => if ds ≠ [] ∧ ds.all Char.isDigit
      then some (ds.foldl (fun n c => 10 * n + (c.toNat - 48)) 0 : Int) else none

/-- Characters the `slugify` regex `[^a-z0-9]` keeps: lowercase ASCII letters and digits. -/
def isSlugChar (c : Char) : Bool :=
  ('a'.toNat ≤ c.toNat && c.toNat ≤ 'z'.toNat) || ('0'.toNat ≤ c.toNat && c.toNat ≤ '9'.toNat)

/-- JS `.replace(/[^a-z0-9]+/g, "-")`: each maximal run of non slug characters
becomes a single hyphen.  The flag argument records whether the previous
character belonged to such a run. -/
def collapseDash : List Char → Bool → List Char
  | [], _ => []
  | c :: cs, inRun =>
    if isSlugChar c then c :: collapseDash cs false
    else if inRun then collapseDash cs true
    else '-' :: collapseDash cs true

/-- JS `.replace(/^-+|-+$/g, "")`: strip leading and trailing hyphen runs. -/
def trimDashes (l : List Char) : List Char :=
  ((l.dropWhile (· == '-')).reverse.dropWhile (· == '-')).reverse

/-- Function `slugify` from `server.js`: `(str || "").toLowerCase()`, collapse non
alphanumeric runs to `-`, strip edge hyphens, `.slice(0, 40)`. -/
def slugify (s : Option String) : String :=
  String.mk ((trimDashes (collapseDash ((s.getD "").data.map Char.toLower) false)).take 40)

/-- JS `.replace(/[^a-z0-9]+/gi, "_")` (case-insensitive, no trimming), used
for the size segment of the Sora/Gemini download directories. -/
def collapseUnderscore : List Char → Bool → List Char
  | [], _ => []
  | c :: cs, inRun =>
    if isSlugChar c.toLower then c :: collapseUnderscore cs false
    else if inRun then collapseUnderscore cs true
    else '_' :: collapseUnderscore cs true

def collapseUnderscoreS (s : String) : String := String.mk (collapseUnderscore s.data false)

/-- JS `.replace(":", "x")` with a string pattern: only the first occurrence. -/
def replaceFirstColon : List Char → List Char
  | [] => []
  | c :: cs => if c = ':' then 'x' :: cs else c :: replaceFirstColon cs

def replaceFirstColonS (s : String) : String := String.mk (replaceFirstColon s.data)

/-- Model of `path.join` on already-clean segments. -/
def pathJoin (xs : List String) : String := String.intercalate "/" xs

/-! ## Engine catalog (`ENGINE_CONFIG` in `server.js`) -/

/-- One entry of the static `ENGINE_CONFIG` catalog.  Fields that some entries
omit are `Option`s (`none` models an absent property).  `apiModel` for the
runway entry uses the source's default `"gen3a_turbo"` (`process.env.RUNWAY_MODEL`
unset). -/
structure EngineConfig where
  label : String
  provider : String
  apiModel : String
  supportsSeed : Bool
  minLength : Option Int := none
  maxLength : Option Int := none
  defaultLength : Option Int := none
  allowedDurations : Option (List Int) := none
  requiresPromptImage : Bool := false
  models : Option (List String) := none
  defaultModel : Option String := none
  sizes : Option (List String) := none
  defaultSize : Option String := none
  allowsReferenceImage : Bool := false
  inputModel : Option String := none
  deriving DecidableEq

def polloV16Cfg : EngineConfig :=
  { label := "Pollo v1.6", provider := "pollo", apiModel := "pollo-v1-6", supportsSeed := true,
    minLength := some 5, maxLength := some 20, defaultLength := some 10 }

def runwayGen3aCfg : EngineConfig :=
  { label := "Runway Gen-3 Alpha Turbo", provider := "runway", apiModel := "gen3a_turbo",
    supportsSeed := true, minLength := some 5, maxLength := some 10, defaultLength := some 5,
    allowedDurations := some [5, 10], requiresPromptImage := true }

def klingV25TurboCfg : EngineConfig :=
  { label := "Kling v2.5 Turbo", provider := "kling-ai", apiModel := "kling-v2-5-turbo",
    supportsSeed := false, minLength := some 5, maxLength := some 15, defaultLength := some 6 }

def klingV21MasterCfg : EngineConfig :=
  { label := "Kling v2.1 Master", provider := "kling-ai", apiModel := "kling-v2-1-master",
    supportsSeed := false, minLength := some 5, maxLength := some 15, defaultLength := some 6 }

def pikaV22Cfg : EngineConfig :=
  { label := "Pika v2.2", provider := "pika", apiModel := "pika-v2-2", supportsSeed := true,
    minLength := some 5, maxLength := some 20, defaultLength := some 6 }

def pikaV21Cfg : EngineConfig :=
  { label := "Pika v2.1", provider := "pika", apiModel := "pika-v2-1", supportsSeed := true,
    minLength := some 5, maxLength := some 20, defaultLength := some 6 }

def wanV25PreviewCfg : EngineConfig :=
  { label := "Wanx v2.5 Preview", provider := "wanx", apiModel := "wan-v2-5-preview",
    supportsSeed := true, minLength := some 5, maxLength := some 20, defaultLength := some 8 }

def wanV22FlashCfg : EngineConfig :=
  { label := "Wanx v2.2 Flash", provider := "wanx", apiModel := "wan-v2-2-flash",
    supportsSeed := true, minLength := some 5, maxLength := some 20, defaultLength := some 6 }

def wanV22PlusCfg : EngineConfig :=
  { label := "Wanx v2.2 Plus", provider := "wanx", apiModel := "wan-v2-2-plus",
    supportsSeed := true, minLength := some 5, maxLength := some 20, defaultLength := some 6 }

def wanxV21Cfg : EngineConfig :=
  { label := "Wanx v2.1", provider := "wanx", apiModel := "wanx-v2-1", supportsSeed := true,
    minLength := some 5, maxLength := some 20, defaultLength := some 6 }

def sora2Cfg : EngineConfig :=
  { label := "Sora 2", provider := "openai", apiModel := "sora-2", supportsSeed := false,
    minLength := some 4, maxLength := some 12, defaultLength := some 8,
    allowedDurations := some [4, 8, 12], models := some ["sora-2", "sora-2-pro"],
    defaultModel := some "sora-2",
    sizes := some ["1280x720", "720x1280", "1792x1024", "1024x1792"],
    defaultSize := some "1280x720", allowsReferenceImage := true }

def geminiApiCfg : EngineConfig :=
  { label := "Gemini API - Veo", provider := "gemini", apiModel := "veo-3.1-generate-preview",
    supportsSeed := false, minLength := some 4, maxLength := some 8, defaultLength := some 8,
    allowedDurations := some [4, 6, 8],
    models := some ["veo-3.1-generate-preview", "veo-3.1-fast-generate-preview",
      "veo-3.0-generate-001", "veo-3.0-fast-generate-001", "veo-2.0-generate-001"],
    defaultModel := some "veo-3.1-generate-preview", sizes := some ["720p", "1080p"],
    defaultSize := some "720p", allowsReferenceImage := true }

def ENGINE_CONFIG : List (String × EngineConfig) :=
  [("pollo-v1-6", polloV16Cfg), ("runway-gen3a", runwayGen3aCfg),
   ("kling-v2-5-turbo", klingV25TurboCfg), ("kling-v2-1-master", klingV21MasterCfg),
   ("pika-v2-2", pikaV22Cfg), ("pika-v2-1", pikaV21Cfg),
   ("wan-v2-5-preview", wanV25PreviewCfg), ("wan-v2-2-flash", wanV22FlashCfg),
   ("wan-v2-2-plus", wanV22PlusCfg), ("wanx-v2-1", wanxV21Cfg),
   ("sora-2", sora2Cfg), ("gemini-api", geminiApiCfg)]

def SORA_MODEL_FALLBACK : String := "sora-2"
def SORA_SIZE_FALLBACK : String := "1280x720"
def SORA_SECONDS_FALLBACK : String := "4"

def SORA_ALLOWED_MODELS : List String := ["sora-2", "sora-2-pro"]
def SORA_ALLOWED_SIZES : List String := ["1280x720", "720x1280", "1792x1024", "1024x1792"]
def SORA_ALLOWED_SECONDS : List String := ["4", "8", "12"]

/-! ## Status mappings -/

/-- Function `mapRunwayStatus`: `String(status || "").toUpperCase()` then the switch;
default branch is `normalized.toLowerCase() || "queued"`. -/
def mapRunwayStatus (status : Option String) : String :=
  let normalized := upperS (jsOrS status "")
  if normalized = "PENDING" ∨ normalized = "THROTTLED" then "queued"
  else if normalized = "RUNNING" then "running"
  else if normalized = "SUCCEEDED" then "succeeded"
  else if normalized = "FAILED" ∨ normalized = "CANCELED" then "failed"
  else jsOrS (some (lowerS normalized)) "queued"

/-- Function `mapSoraStatus`: lowercase then bucket membership; unknown statuses are
returned unchanged (lowercased). -/
def mapSoraStatus (status : Option String) : String :=
  let normalized := lowerS (jsOrS status "")
  if normalized.isEmpty then "queued"
  else if ["pending", "queued", "waiting", "submitted"].contains normalized then "queued"
  else if ["processing", "running", "generating", "in_progress", "creating"].contains normalized
    then "running"
  else if ["completed", "succeeded", "finished", "ready"].contains normalized then "succeeded"
  else if ["failed", "errored", "error", "canceled", "cancelled", "rejected"].contains normalized
    then "failed"
  else normalized

/-- Function `mapRunwayAspectRatio`: `String(aspectRatio).trim()` looked up in the
ratio table; `"1:1"` maps to `null`, anything absent maps to `null`. -/
def mapRunwayAspect (a : Option String) : Option String :=
  let normalized := trimS (jsStringOfOpt a)
  if normalized = "16:9" then some "1280:768"
  else if normalized = "9:16" then some "768:1280"
  else if normalized = "1:1" then none
  else if normalized = "1280:768" then some "1280:768"
  else if normalized = "768:1280" then some "768:1280"
  else none

/-! ## Sora response normalization -/

/-- Function `coerceSoraValue`: falsy or blank values take the fallback; otherwise the
trimmed value when it belongs to the allowed set, else the fallback. -/
def coerceSoraValue (value : Option String) (st : List String) (fallback : String) : String :=
  match value with
  | none => fallback
  | some s =>
    if s.isEmpty then fallback
    else
      let t := trimS s
      if t.isEmpty then fallback
      else if st.contains t then t else fallback

def coerceSoraModel (value : Option String) (fallback : String := SORA_MODEL_FALLBACK) : String :=
  coerceSoraValue value SORA_ALLOWED_MODELS fallback

def coerceSoraSize (value : Option String) (fallback : String := SORA_SIZE_FALLBACK) : String :=
  coerceSoraValue value SORA_ALLOWED_SIZES fallback

def coerceSoraSeconds (value : Option String) (fallback : String := SORA_SECONDS_FALLBACK) :
    String :=
  coerceSoraValue value SORA_ALLOWED_SECONDS fallback

/-- One entry of a Sora `assets`/`output` collection (only the fields the
extraction reads). -/
structure SoraAssetEntry where
  download_url : Option String := none
  url : Option String := none
  kind : Option String := none
  deriving DecidableEq

/-- The polymorphic `assets` field: absent / a record with nested `video` and
`thumbnail` records / an array of entries. -/
inductive SoraAssets where
  | nul
  | rcd (videoDownloadUrl : Option String) (thumbUrl : Option String)
  | arr (entries : List SoraAssetEntry)
  deriving DecidableEq

/-- The fields of a Sora video response that the relay reads.  `errField`:
`none` models `"error" not in videoData`; `some e` models a present `error`
property whose value is `e` (`none` for `null`). -/
structure SoraVideoData where
  status : Option String := none
  state : Option String := none
  model : Option String := none
  size : Option String := none
  seconds : Option String := none
  download_url : Option String := none
  content_url : Option String := none
  thumbnail_url : Option String := none
  assets : SoraAssets := .nul
  output : Option (List SoraAssetEntry) := none
  errField : Option (Option String) := none
  deriving DecidableEq

/-- The loop body of `searchCollection`: first entry whose
`download_url || url` is truthy. -/
def searchCollection (l : Option (List SoraAssetEntry)) : Option String :=
  match l with
  | none => none
  | some entries =>
    entries.findSome? (fun e =>
      let u := jsOr e.download_url e.url
      if optTruthy u then u else none)

def soraAssetsArr : SoraAssets → Option (List SoraAssetEntry)
  | .arr l => some l
  | _ => none

/-- Function `extractSoraDownloadUrl`: direct `download_url || content_url`, then the
nested `assets.video.download_url`, then `searchCollection(assets)`, then
`searchCollection(output)`. -/
def extractSoraDownloadUrl (vd : SoraVideoData) : Option String :=
  let direct := jsOr vd.download_url vd.content_url
  if optTruthy direct then direct
  else
    let nested := match vd.assets with
      | .rcd vdu _ => vdu
      | _ => none
    if optTruthy nested then nested
    else
      let fromAssets := searchCollection (soraAssetsArr vd.assets)
      if optTruthy fromAssets then fromAssets
      else searchCollection vd.output

/-- Function `extractSoraThumbnailUrl`: direct `thumbnail_url`, then the record form
`assets.thumbnail.url`, then a scan of the array form for a
`type === "thumbnail"` entry with a truthy `url`. -/
def extractSoraThumbnailUrl (vd : SoraVideoData) : Option String :=
  let direct := vd.thumbnail_url
  if optTruthy direct then direct
  else
    let nested := match vd.assets with
      | .rcd _ tu => tu
      | _ => none
    if optTruthy nested then nested
    else match soraAssetsArr vd.assets with
      | some entries =>
        entries.findSome? (fun e =>
          if e.kind = some "thumbnail" then
            match e.url with
            | some u => if u.isEmpty then none else some u
            | none => none
          else none)
      | none => none

/-- The fallback payload passed to `normalizeSoraResponse`. -/
structure SoraFallback where
  prompt : String
  model : String
  size : String
  seconds : String
  deriving DecidableEq

/-- The fields of the normalized Sora response that the relay stores into the
job record.  This is `normalizeSoraResponse` restricted to those fields: the
`id`, `created_at`, `completed_at` and `remix_video_id` fields are attached to
the raw response only and never read by the status poll, so they are omitted
here. -/
structure SoraNormalized where
  status : String
  model : String
  size : String
  seconds : String
  download_url : Option String
  thumbnail_url : Option String
  errVal : Option String
  deriving DecidableEq

/-- Function `normalizeSoraResponse` (job-relevant fields).  A non-record response is
modelled by `none` and behaves as the empty record. -/
def normalizeSoraResponse (video : Option SoraVideoData) (fallback : SoraFallback) :
    SoraNormalized :=
  let vd := video.getD {}
  let statusRaw := jsOrS (jsOr vd.status vd.state) "queued"
  { status := statusRaw,
    model := coerceSoraModel (some (vd.model.getD fallback.model)),
    size := coerceSoraSize (some (vd.size.getD fallback.size)),
    seconds := coerceSoraSeconds (some (vd.seconds.getD fallback.seconds)),
    download_url := extractSoraDownloadUrl vd,
    thumbnail_url := extractSoraThumbnailUrl vd,
    errVal := match vd.errField with
      | some e => e
      | none => none }

/-! ## `/api/generate`: request validation (lines 442-520) -/

/-- The request-body fields that drive validation.  `durationRounded` is
`Math.round` of the effective length when the request supplied a finite
number (`duration` taking precedence over `lengthSeconds`), `none` when the
field was absent or not a finite number. -/
structure GenRequest where
  engineId : String
  prompt : Option String := none
  aspect : Option String := none
  durationRounded : Option Int := none
  deriving DecidableEq

/-- JS truthiness of `prompt?.trim()`. -/
def promptTruthy (p : Option String) : Bool :=
  match p with
  | some s => strTruthy (trimS s)
  | none => false

def rangeMsg (minL maxL : Int) : String :=
  "Length must be between " ++ toString minL ++ " and " ++ toString maxL ++ " seconds"

def allowedMsg (ds : List Int) : String :=
  "Length must be one of: " ++ String.intercalate ", " (ds.map toString)

/-- The validation chain of `POST /api/generate` up to the provider dispatch:
engine lookup, prompt, aspect ratio (not required for openai/gemini), range
check on the rounded length, allowed-durations membership.  `.ok` carries the
engine and the `numericLength` that the provider branches then use. -/
def validateGenerate (r : GenRequest) : Except (Nat × String) (EngineConfig × Int) :=
  match List.lookup r.engineId ENGINE_CONFIG with
  | none => .error (400, "Bad engine")
  | some engine =>
    if ¬ promptTruthy r.prompt then .error (400, "Prompt required")
    else if ¬ optTruthy r.aspect ∧ engine.provider ≠ "openai" ∧ engine.provider ≠ "gemini" then
      .error (400, "Aspect ratio required")
    else
      let minLength := engine.minLength.getD 5
      let maxLength := engine.maxLength.getD 20
      let defaultLength := engine.defaultLength.getD minLength
      let numericLength := r.durationRounded.getD defaultLength
      if numericLength < minLength ∨ numericLength > maxLength then
        .error (400, rangeMsg minLength maxLength)
      else
        match engine.allowedDurations with
        | some ds =>
          if ds ≠ [] ∧ ¬ ds.contains numericLength then .error (400, allowedMsg ds)
          else .ok (engine, numericLength)
        | none => .ok (engine, numericLength)

/-! ## `/api/generate`: openai/gemini model and size selection (lines 593-615, 720-735) -/

/-- Value `allowedModels` in the openai branch: the engine's nonempty `models` list,
else the static Sora set. -/
def soraAllowedModels (e : EngineConfig) : List String :=
  match e.models with
  | some l => if l.isEmpty then SORA_ALLOWED_MODELS else l
  | none => SORA_ALLOWED_MODELS

/-- Value `defaultModel` in the openai branch:
`engine.defaultModel || allowedModels[0] || SORA_MODEL_FALLBACK`. -/
def soraDefaultModel (e : EngineConfig) : String :=
  jsOrS e.defaultModel (jsOrS (soraAllowedModels e).head? SORA_MODEL_FALLBACK)

/-- Value `selectedModel` in the openai branch. -/
def selectSoraModel (e : EngineConfig) (requestedModel : Option String) : String :=
  let clean := trimS (requestedModel.getD "")
  if (soraAllowedModels e).contains clean then clean else soraDefaultModel e

def soraAllowedSizes (e : EngineConfig) : List String :=
  match e.sizes with
  | some l => if l.isEmpty then SORA_ALLOWED_SIZES else l
  | none => SORA_ALLOWED_SIZES

/-- Value `defaultSize` in the openai branch:
`engine.defaultSize || allowedSizes[0] || SORA_SIZE_FALLBACK`. -/
def soraDefaultSize (e : EngineConfig) : String :=
  jsOrS e.defaultSize (jsOrS (soraAllowedSizes e).head? SORA_SIZE_FALLBACK)

/-- Value `selectedSize` in the openai branch: the trimmed requested size when
allowed, else the trimmed aspect ratio when it is itself an allowed size,
else the default size. -/
def selectSoraSize (e : EngineConfig) (requestedSize : Option String) (a : Option String) :
    String :=
  let reqClean := trimS (requestedSize.getD "")
  let aspectCandidate := trimS (a.getD "")
  if (soraAllowedSizes e).contains reqClean then reqClean
  else if (soraAllowedSizes e).contains aspectCandidate then aspectCandidate
  else soraDefaultSize e

/-- Values `allowedModels` and `selectedModel` in the gemini branch. -/
def geminiAllowedModels (e : EngineConfig) : List String :=
  match e.models with
  | some l => if l.isEmpty then ["veo-3.1-generate-preview"] else l
  | none => ["veo-3.1-generate-preview"]

def geminiDefaultModel (e : EngineConfig) : String :=
  jsOrS e.defaultModel ((geminiAllowedModels e).headD "")

def selectGeminiModel (e : EngineConfig) (requestedModel : Option String) : String :=
  let clean := trimS (requestedModel.getD "")
  if (geminiAllowedModels e).contains clean then clean else geminiDefaultModel e

/-- Value `geminiResolution`: the trimmed effective size when truthy, else
`engine.defaultSize || "720p"`; then snapped to `"1080p"`/`"720p"`. -/
def selectGeminiResolution (e : EngineConfig) (effectiveSize : Option String) : String :=
  let resolution := match effectiveSize with
    | some s => if strTruthy (trimS s) then trimS s else jsOrS e.defaultSize "720p"
    | none => jsOrS e.defaultSize "720p"
  if resolution = "1080p" then "1080p" else "720p"

/-! ## `/api/generate`: per-provider credential gates -/

/-- Server-side environment credentials (`none` models an unset variable). -/
structure Env where
  runwayKey : Option String := none
  openaiKey : Option String := none
  geminiKey : Option String := none
  videoKey : Option String := none
  deriving DecidableEq

/-- The runway branch of `/api/generate` up to its outbound `axios.post`:
key check, aspect-ratio mapping, prompt-image requirement.  `.ok ()` means
control reaches the outbound vendor call; `.error` is returned with no
outbound call made. -/
def runwayGenGate (env : Env) (a : Option String) (promptImage : Option String) :
    Except (Nat × String) Unit :=
  if ¬ optTruthy env.runwayKey then .error (500, "Runway API key not configured")
  else if (mapRunwayAspect a).isNone then
    .error (400, "Aspect ratio not supported for Runway Gen-3")
  else if ¬ optTruthy promptImage then
    .error (400, "Runway Gen-3 requires an image upload")
  else .ok ()

/-- The openai branch up to its outbound call: only the trimmed-key check
precedes the vendor call; the requested model/size never produce an error. -/
def openaiGenGate (env : Env) : Except (Nat × String) Unit :=
  if ¬ optTruthy (env.openaiKey.map trimS) then .error (500, "OpenAI API key not configured")
  else .ok ()

/-- The gemini branch up to its outbound call: only the key check. -/
def geminiGenGate (env : Env) : Except (Nat × String) Unit :=
  if ¬ optTruthy env.geminiKey then .error (500, "Gemini API key not configured")
  else .ok ()

/-- The fallback (pollo-style) branch: the source performs no credential
check at lines 843-881; the outbound `axios.post` is always attempted. -/
def polloGenGate (_env : Env) : Except (Nat × String) Unit := .ok ()

/-- Dispatch of the provider branches of `/api/generate` after validation,
restricted to the code before each branch's outbound vendor call. -/
def generateGate (env : Env) (provider : String) (a promptImage : Option String) :
    Except (Nat × String) Unit :=
  if provider = "runway" then runwayGenGate env a promptImage
  else if provider = "openai" then openaiGenGate env
  else if provider = "gemini" then geminiGenGate env
  else polloGenGate env

/-! ## Job records and the status poller (lines 963-1262) -/

/-- One generation entry of a pollo status response. -/
structure PolloGen where
  url : Option String := none
  deriving DecidableEq

/-- The in-memory job record (the union of the fields the handlers read or
write; provider-specific raw-response attachments such as `job.runway` are
not modelled, they are never read back). -/
structure Job where
  id : String
  engineId : String
  provider : String
  prompt : String
  aspect : Option String := none
  seed : Option Int := none
  status : String := "queued"
  createdAt : String := ""
  localPath : Option String := none
  videoUrl : Option String := none
  thumbnailUrl : Option String := none
  model : Option String := none
  size : Option String := none
  lengthSeconds : Option Int := none
  remoteStatus : Option String := none
  errMsg : Option String := none
  generations : Option (List PolloGen) := none
  geminiOperationName : Option String := none
  referenceImageName : Option String := none
  deriving DecidableEq

/-- The default job record built at lines 887-910 for providers that did not
build their own (runway and pollo-style). -/
def mkDefaultJobRecord (jobId engineId prompt : String) (a : Option String)
    (seed : Option Int) (numericLength : Int) (provider : String)
    (requestedModel requestedSize : Option String) (createdAt : String) : Job :=
  { id := jobId, engineId := engineId, prompt := prompt, aspect := a, seed := seed,
    status := "queued", createdAt := createdAt, localPath := none, videoUrl := none,
    lengthSeconds := some numericLength, provider := provider,
    model := requestedModel.map trimS,
    size := match requestedSize with
      | some s => some (trimS s)
      | none => a.map trimS,
    thumbnailUrl := none, remoteStatus := none, referenceImageName := none }

/-- Side effects of one poll beyond the job-table update. -/
structure PollEff where
  downloadAttempted : Bool
  threw : Bool
  deriving DecidableEq

/-- One entry of a runway `output`/`outputs` array: a plain string, an object
carrying `uri`/`url` fields, or some other value. -/
inductive RunwayOut where
  | str (s : String)
  | obj (uri : Option String) (url : Option String)
  | other
  deriving DecidableEq

/-- A runway task status response (the fields the poll reads).  `output` and
`outputsAlt` are `some` exactly when `data.output` resp. `data.outputs` is an
array. -/
structure RunwayData where
  status : Option String := none
  failure : Option String := none
  errVal : Option String := none
  output : Option (List RunwayOut) := none
  outputsAlt : Option (List RunwayOut) := none
  deriving DecidableEq

/-- The `.mp4` test of the runway output scan (case-insensitive suffix). -/
def isMp4 (s : String) : Bool := endsWithS (lowerS s) ".mp4"

/-- The predicate of `outputs.find(...)` at lines 1000-1007. -/
def runwayEntryMatch : RunwayOut → Bool
  | .str s => isMp4 s
  | .obj uri url =>
    match jsOr uri url with
    | some u => isMp4 u
    | none => false
  | .other => false

/-- Lines 988-1014 of the runway poll: map the status, store the error, and
resolve `videoUrl` from the first `.mp4` output when it is not yet set. -/
def runwayUpdate (j : Job) (d : RunwayData) : Job :=
  let j1 := { j with status := mapRunwayStatus d.status,
                     errMsg := jsOr (jsOr d.failure d.errVal) none }
  let outs := match d.output with
    | some l => l
    | none => match d.outputsAlt with
      | some l => l
      | none => []
  if optTruthy j1.videoUrl then j1
  else
    match outs.find? runwayEntryMatch with
    | some (.str s) => { j1 with videoUrl := some s }
    | some (.obj uri url) => { j1 with videoUrl := jsOr (jsOr uri url) none }
    | some .other => j1
    | none => j1

/-- The directory segments of the runway download path (line 1022-1027):
download dir, engine id, slugified prompt, aspect with `:` replaced. -/
def runwayDownloadSegments (base : String) (j : Job) : List String :=
  [base, j.engineId, slugify (some j.prompt), replaceFirstColonS (jsOrS j.aspect "")]

/-- Full runway download path: the directory joined with
`{engineId}_{timestamp}.mp4`. -/
def runwayFullPath (base : String) (j : Job) (ts : Int) : String :=
  pathJoin (runwayDownloadSegments base j ++ [j.engineId ++ "_" ++ toString ts ++ ".mp4"])

/-- One runway status poll (lines 973-1041) given the vendor's response `d`.
`dlOk` tells whether the streamed download would succeed; `ts` is
`Date.now()`; `base` is the download directory.  The returned `PollEff`
records whether `downloadFile` was invoked and whether it threw (a throw is
caught only by the route-level handler, which answers 500). -/
def runwayStep (j : Job) (d : RunwayData) (dlOk : Bool) (ts : Int) (base : String) :
    Job × PollEff :=
  let j2 := runwayUpdate j d
  if j2.status = "succeeded" ∧ ¬ optTruthy j2.localPath then
    if ¬ optTruthy j2.videoUrl then (j2, ⟨false, false⟩)
    else if dlOk then ({ j2 with localPath := some (runwayFullPath base j2 ts) }, ⟨true, false⟩)
    else (j2, ⟨true, true⟩)
  else (j2, ⟨false, false⟩)


/-- The dir segments of the Sora download path (lines 1100-1105): download
dir, engine id, slugified prompt, size with non-alphanumeric runs as `_`. -/
def soraDownloadSegments (base : String) (j : Job) : List String :=
  [base, j.engineId, slugify (some j.prompt), collapseUnderscoreS (jsOrS j.size "unknown")]

def soraFullPath (base : String) (j : Job) (ts : Int) : String :=
  pathJoin (soraDownloadSegments base j ++ [j.engineId ++ "_" ++ toString ts ++ ".mp4"])

/-- Lines 1067-1097 of the openai poll: build the fallback payload, normalize
the response and fold it into the job record (sequential field updates; the
`aspect` update reads the size just assigned). -/
def soraUpdate (j : Job) (video : Option SoraVideoData) : Job :=
  let engineOpt := match List.lookup j.engineId ENGINE_CONFIG with
    | some e => some e
    | none => List.lookup "sora-2" ENGINE_CONFIG
  let fallbackSeconds := coerceSoraSeconds (j.lengthSeconds.map toString)
      (match engineOpt.bind (fun e => e.defaultLength) with
       | some n => toString n
       | none => SORA_SECONDS_FALLBACK)
  let fallback : SoraFallback :=
    { prompt := j.prompt,
      model := jsOrS (jsOr j.model (engineOpt.bind (fun e => e.defaultModel)))
        SORA_MODEL_FALLBACK,
      size := jsOrS (jsOr (jsOr j.size j.aspect) (engineOpt.bind (fun e => e.defaultSize)))
        SORA_SIZE_FALLBACK,
      seconds := fallbackSeconds }
  let n := normalizeSoraResponse video fallback
  let size1 := jsOr (some n.size) (jsOr (some fallback.size) none)
  { j with
    remoteStatus := jsOr (some n.status) (jsOr j.remoteStatus none),
    status := mapSoraStatus (some n.status),
    model := jsOr (some n.model) (jsOr (some fallback.model) none),
    size := size1,
    aspect := jsOr size1 (jsOr j.aspect none),
    lengthSeconds := match jsNumberInt n.seconds with
      | some k => some k
      | none => j.lengthSeconds,
    videoUrl := jsOr n.download_url (jsOr j.videoUrl none),
    thumbnailUrl := jsOr n.thumbnail_url (jsOr j.thumbnailUrl none),
    errMsg := jsOr n.errVal none }

/-- One openai (Sora) status poll (lines 1044-1118).  The download throw is
not caught locally, so it surfaces as a route-level 500. -/
def soraStep (j : Job) (video : Option SoraVideoData) (dlOk : Bool) (ts : Int) (base : String) :
    Job × PollEff :=
  let j2 := soraUpdate j video
  if j2.status = "succeeded" ∧ optTruthy j2.videoUrl ∧ ¬ optTruthy j2.localPath then
    if dlOk then ({ j2 with localPath := some (soraFullPath base j2 ts) }, ⟨true, false⟩)
    else (j2, ⟨true, true⟩)
  else (j2, ⟨false, false⟩)

/-- A truthy gemini operation error object: its `message` field and its
`JSON.stringify` serialization. -/
structure GeminiErr where
  message : Option String := none
  stringified : String := ""
  deriving DecidableEq

/-- One entry of `generateVideoResponse.generatedSamples` (its `video.uri`). -/
structure GeminiSample where
  videoUri : Option String := none
  deriving DecidableEq

/-- A gemini operation status response: `done`, a truthy `error` object when
present, and the `generatedSamples` array when present. -/
structure GeminiData where
  done : Bool := false
  errObj : Option GeminiErr := none
  samples : Option (List GeminiSample) := none
  deriving DecidableEq

/-- Lines 1156-1185 of the gemini poll: map `done`/`error` onto the status,
set `remoteStatus`, and extract the first sample's video uri when newly
succeeded. -/
def geminiUpdate (j : Job) (d : GeminiData) : Job :=
  let status := if d.done then
      (match d.errObj with
       | some _ => "failed"
       | none => "succeeded")
    else "running"
  let errMsg1 := if d.done then
      (match d.errObj with
       | some e => some (jsOrS e.message e.stringified)
       | none => j.errMsg)
    else j.errMsg
  let j1 := { j with status := status, errMsg := errMsg1,
                     remoteStatus := some (if d.done then "completed" else "in_progress") }
  if d.done ∧ status = "succeeded" ∧ ¬ optTruthy j1.videoUrl then
    match d.samples with
    | some (s :: _) =>
      match s.videoUri with
      | some u => if u.isEmpty then j1 else { j1 with videoUrl := some u }
      | none => j1
    | _ => j1
  else j1

def geminiDownloadSegments (base : String) (j : Job) : List String :=
  [base, j.engineId, slugify (some j.prompt),
   collapseUnderscoreS (jsOrS (jsOr j.size j.aspect) "unknown")]

def geminiFullPath (base : String) (j : Job) (ts : Int) : String :=
  pathJoin (geminiDownloadSegments base j ++ [j.engineId ++ "_" ++ toString ts ++ ".mp4"])

/-- One gemini status poll (lines 1121-1213).  The download is wrapped in a
local try/catch ("continue without local path"), so a failed download never
throws to the route level. -/
def geminiStep (j : Job) (d : GeminiData) (dlOk : Bool) (ts : Int) (base : String) :
    Job × PollEff :=
  let j2 := geminiUpdate j d
  if j2.status = "succeeded" ∧ optTruthy j2.videoUrl ∧ ¬ optTruthy j2.localPath then
    if dlOk then ({ j2 with localPath := some (geminiFullPath base j2 ts) }, ⟨true, false⟩)
    else (j2, ⟨true, false⟩)
  else (j2, ⟨false, false⟩)

/-- A pollo-style status response (the fields the poll reads). -/
structure PolloData where
  status : String
  errVal : Option String := none
  generations : Option (List PolloGen) := none
  output_url : Option String := none
  video_url : Option String := none
  deriving DecidableEq

/-- Lines 1222-1224 of the pollo poll: the raw vendor status is stored
verbatim into `job.status`. -/
def polloUpdate (j : Job) (d : PolloData) : Job :=
  { j with status := d.status,
           errMsg := jsOr d.errVal none,
           generations := match d.generations with
             | some g => some g
             | none => j.generations }

def polloDownloadSegments (base : String) (j : Job) (a : String) : List String :=
  [base, j.engineId, slugify (some j.prompt), replaceFirstColonS a]

def polloFullPath (base : String) (j : Job) (a : String) (ts : Int) : String :=
  pathJoin (polloDownloadSegments base j a ++ [j.engineId ++ "_" ++ toString ts ++ ".mp4"])

/-- One pollo-style status poll (lines 1216-1256).  When the job has no
aspect ratio, `job.aspectRatio.replace` raises a `TypeError`, modelled by
`threw` with no download attempt. -/
def polloStep (j : Job) (d : PolloData) (dlOk : Bool) (ts : Int) (base : String) :
    Job × PollEff :=
  let j1 := polloUpdate j d
  if (d.status = "completed" ∨ d.status = "succeeded") ∧ ¬ optTruthy j1.localPath then
    let gen : Option PolloGen := match d.generations with
      | some gs => gs.find? (fun g => optTruthy g.url)
      | none => none
    let vUrl := jsOr (match gen with
        | some g => g.url
        | none => none)
      (jsOr d.output_url d.video_url)
    let j2 := if optTruthy vUrl then { j1 with videoUrl := vUrl } else j1
    if ¬ optTruthy vUrl then (j2, ⟨false, false⟩)
    else
      match j2.aspect with
      | none => (j2, ⟨false, true⟩)
      | some a =>
        if dlOk then ({ j2 with localPath := some (polloFullPath base j2 a ts) }, ⟨true, false⟩)
        else (j2, ⟨true, true⟩)
  else (j1, ⟨false, false⟩)

/-- The vendor's (successful) status responses, one per provider family; the
handler consults the field matching the job's provider. -/
structure VendorResp where
  runway : RunwayData := {}
  sora : Option SoraVideoData := none
  gemini : GeminiData := {}
  pollo : PolloData := { status := "" }

/-- Result of one `GET /api/status/:jobId` call: HTTP status, error body (if
an error JSON was answered), the job table after the call, the number of
outbound vendor status requests made, and the poll side effects. -/
structure StatusOutcome where
  httpStatus : Nat
  errBody : Option String
  table : List (String × Job)
  statusCalls : Nat
  eff : PollEff

/-- In-place mutation of the job object held in the `jobs` table. -/
def updateTable (tbl : List (String × Job)) (id : String) (j : Job) :
    List (String × Job) :=
  tbl.map (fun p => if p.1 = id then (p.1, j) else p)

/-- The `GET /api/status/:jobId` route (lines 963-1262): unknown id answers
404 before any outbound call; otherwise the provider's key is checked
(pollo-style providers have no check) and exactly one outbound status
request is made, followed by the provider-specific update and optional
download. -/
def statusHandler (env : Env) (tbl : List (String × Job)) (id : String) (vr : VendorResp)
    (dlOk : Bool) (ts : Int) (base : String) : StatusOutcome :=
  match List.lookup id tbl with
  | none => ⟨404, some "Unknown job", tbl, 0, ⟨false, false⟩⟩
  | some j =>
    if j.provider = "runway" then
      if ¬ optTruthy env.runwayKey then
        ⟨500, some "Runway API key not configured", tbl, 0, ⟨false, false⟩⟩
      else
        let r := runwayStep j vr.runway dlOk ts base
        ⟨if r.2.threw then 500 else 200, if r.2.threw then some "Status error" else none,
         updateTable tbl id r.1, 1, r.2⟩
    else if j.provider = "openai" then
      if ¬ optTruthy (env.openaiKey.map trimS) then
        ⟨500, some "OpenAI API key not configured", tbl, 0, ⟨false, false⟩⟩
      else
        let r := soraStep j vr.sora dlOk ts base
        ⟨if r.2.threw then 500 else 200, if r.2.threw then some "Status error" else none,
         updateTable tbl id r.1, 1, r.2⟩
    else if j.provider = "gemini" then
      if ¬ optTruthy env.geminiKey then
        ⟨500, some "Gemini API key not configured", tbl, 0, ⟨false, false⟩⟩
      else
        let r := geminiStep j vr.gemini dlOk ts base
        ⟨if r.2.threw then 500 else 200, if r.2.threw then some "Status error" else none,
         updateTable tbl id r.1, 1, r.2⟩
    else
      let r := polloStep j vr.pollo dlOk ts base
      ⟨if r.2.threw then 500 else 200, if r.2.threw then some "Status error" else none,
       updateTable tbl id r.1, 1, r.2⟩

/-! ## Concrete samples and spec-side predicates -/

/-- Spec-side predicate: the duration passes the engine's allowed-durations
check (vacuous when the engine lists none, or lists an empty array). -/
def durationAllowed (e : EngineConfig) (d : Int) : Prop :=
  match e.allowedDurations with
  | some ds => ds = [] ∨ d ∈ ds
  | none => True

instance (e : EngineConfig) (d : Int) : Decidable (durationAllowed e d) := by
  unfold durationAllowed
  exact match e.allowedDurations with
    | some ds => inferInstanceAs (Decidable (_ ∨ _))
    | none => inferInstanceAs (Decidable True)

/-- A `runway-gen3a` request with duration 7 (rounded). -/
def genReqRunway7 : GenRequest :=
  { engineId := "runway-gen3a", prompt := some "a cat",
    aspect := some "16:9", durationRounded := some 7 }

/-- An environment with no credential configured. -/
def envEmpty : Env := {}

/-- A freshly created runway job. -/
def jRunwaySample : Job :=
  { id := "task-1", engineId := "runway-gen3a", provider := "runway", prompt := "a cat",
    aspect := some "16:9" }

/-- A freshly created pollo job whose download already completed. -/
def jPolloSample : Job :=
  { id := "task-2", engineId := "pollo-v1-6", provider := "pollo", prompt := "a cat",
    aspect := some "16:9", localPath := some "/d/f.mp4" }

/-- A freshly created Sora job. -/
def jSoraSample : Job :=
  { id := "video-3", engineId := "sora-2", provider := "openai", prompt := "a cat",
    aspect := some "1280x720", size := some "1280x720", model := some "sora-2",
    lengthSeconds := some 8 }

/-- A succeeded runway status response carrying one `.mp4` output. -/
def runwaySucceededData : RunwayData :=
  { status := some "SUCCEEDED", output := some [.str "https://cdn.example/video.mp4"] }

/-! ## Helper lemmas -/

lemma mem_collapseDash {c : Char} :
    ∀ (l : List Char) (b : Bool), c ∈ collapseDash l b → isSlugChar c = true ∨ c = '-' := by
  intro l
  induction l with
  | nil => intro b h; simp [collapseDash] at h
  | cons d ds ih =>
    intro b h
    by_cases hd : isSlugChar d
    · simp [collapseDash, hd] at h
      rcases h with rfl | h
      · exact Or.inl hd
      · exact ih _ h
    · simp [collapseDash, hd] at h
      by_cases hb : b
      · subst hb; simp at h; exact ih _ h
      · simp [hb] at h
        rcases h with rfl | h
        · exact Or.inr rfl
        · exact ih _ h

lemma mem_trimDashes {c : Char} {l : List Char} (h : c ∈ trimDashes l) : c ∈ l := by
  unfold trimDashes at h
  rw [List.mem_reverse] at h
  have h2 := (List.dropWhile_sublist _).mem h
  rw [List.mem_reverse] at h2
  exact (List.dropWhile_sublist _).mem h2

lemma ite_eq_or_str (c : Prop) [Decidable c] (a b : String) :
    (if c then a else b) = a ∨ (if c then a else b) = b := by
  split <;> simp

lemma slug_char_not_path {c : Char} (h : isSlugChar c = true ∨ c = '-') :
    c ≠ '/' ∧ c ≠ '.' ∧ c ≠ '\\' := by
  rcases h with h | rfl
  · refine ⟨?_, ?_, ?_⟩ <;> rintro rfl <;> exact absurd h (by decide)
  · exact ⟨by decide, by decide, by decide⟩

/-- C10: `slugify` always returns at most 40 characters drawn from lowercase
ASCII letters, digits and hyphens; in particular no path separator or dot can
appear, so the prompt-derived segment of a download path cannot escape the
download directory. -/
theorem slugify_safe (s : Option String) :
    (slugify s).length ≤ 40 ∧
    ∀ c ∈ (slugify s).data,
      (isSlugChar c = true ∨ c = '-') ∧ c ≠ '/' ∧ c ≠ '.' ∧ c ≠ '\\' := by
  constructor
  · show (List.take 40 _).length ≤ 40
    simp
  · intro c hc
    have h1 : c ∈ trimDashes (collapseDash ((s.getD "").data.map Char.toLower) false) :=
      (List.take_sublist _ _).mem hc
    have h2 := mem_collapseDash _ _ (mem_trimDashes h1)
    exact ⟨h2, slug_char_not_path h2⟩

/-- Witness for C10 at the concrete prompt `"Hello, World!"` and the
character `h` of its slug. -/
theorem slugify_safe_witness :
    (slugify (some "Hello, World!")).length ≤ 40 ∧
    ((isSlugChar 'h' = true ∨ 'h' = '-') ∧ 'h' ≠ '/' ∧ 'h' ≠ '.' ∧ 'h' ≠ '\\') :=
  ⟨(slugify_safe (some "Hello, World!")).1,
   (slugify_safe (some "Hello, World!")).2 'h' (by decide)⟩

/-- C4: for every vendor status string, the runway mapping applied to the
uppercased input sends `PENDING`/`THROTTLED` to `queued`, `RUNNING` to
`running`, `SUCCEEDED` to `succeeded`, and `FAILED`/`CANCELED` to `failed`. -/
theorem mapRunwayStatus_vocabulary (s : String) :
    (upperS s = "PENDING" → mapRunwayStatus (some s) = "queued") ∧
    (upperS s = "THROTTLED" → mapRunwayStatus (some s) = "queued") ∧
    (upperS s = "RUNNING" → mapRunwayStatus (some s) = "running") ∧
    (upperS s = "SUCCEEDED" → mapRunwayStatus (some s) = "succeeded") ∧
    (upperS s = "FAILED" → mapRunwayStatus (some s) = "failed") ∧
    (upperS s = "CANCELED" → mapRunwayStatus (some s) = "failed") := by
  by_cases he : s.isEmpty
  · have hs : s = "" := by simpa [String.isEmpty_iff] using he
    subst hs
    refine ⟨?_, ?_, ?_, ?_, ?_, ?_⟩ <;> intro h <;> exact absurd h (by decide)
  · refine ⟨?_, ?_, ?_, ?_, ?_, ?_⟩ <;> intro h <;>
      simp [mapRunwayStatus, jsOrS, he, h]

/-- Witness for C4 at the lowercase input `"canceled"`. -/
theorem mapRunwayStatus_vocabulary_witness :
    mapRunwayStatus (some "canceled") = "failed" :=
  (mapRunwayStatus_vocabulary "canceled").2.2.2.2.2 (by decide)

/-- C1: with a valid engine, truthy prompt, aspect ratio where required and a
numeric (rounded) duration `d`, the generate validation accepts exactly the
durations inside the engine's min/max range that also satisfy its
allowed-durations list, and otherwise answers 400 naming the valid bounds;
in particular `runway-gen3a` with duration 7 is rejected with
`"Length must be one of: 5, 10"`. -/
theorem generate_duration_validation :
    (∀ (r : GenRequest) (e : EngineConfig) (d : Int),
      List.lookup r.engineId ENGINE_CONFIG = some e →
      promptTruthy r.prompt = true →
      (optTruthy r.aspect = true ∨ e.provider = "openai" ∨ e.provider = "gemini") →
      r.durationRounded = some d →
      ((e.minLength.getD 5 ≤ d ∧ d ≤ e.maxLength.getD 20 ∧ durationAllowed e d →
          validateGenerate r = .ok (e, d)) ∧
        (d < e.minLength.getD 5 ∨ e.maxLength.getD 20 < d →
          validateGenerate r =
            .error (400, rangeMsg (e.minLength.getD 5) (e.maxLength.getD 20))) ∧
        (e.minLength.getD 5 ≤ d → d ≤ e.maxLength.getD 20 → ¬ durationAllowed e d →
          ∃ ds, e.allowedDurations = some ds ∧
            validateGenerate r = .error (400, allowedMsg ds)))) ∧
    validateGenerate genReqRunway7 = .error (400, "Length must be one of: 5, 10") := by
  constructor
  · intro r e d hlook hp ha hd
    have haspect : ¬ (¬ optTruthy r.aspect = true ∧
        e.provider ≠ "openai" ∧ e.provider ≠ "gemini") := by
      rcases ha with h | h | h <;> simp [h]
    refine ⟨?_, ?_, ?_⟩
    · rintro ⟨h1, h2, h3⟩
      unfold validateGenerate
      rw [hlook]
      simp only [hp, haspect, hd]
      have hrange : ¬ (d < e.minLength.getD 5 ∨ e.maxLength.getD 20 < d) := by omega
      unfold durationAllowed at h3
      rcases hcase : e.allowedDurations with _ | ds
      · simp [hcase, hrange]
      · rw [hcase] at h3
        rcases h3 with rfl | h3
        · simp [hcase, hrange]
        · simp [hcase, hrange, h3]
    · intro hrange
      unfold validateGenerate
      rw [hlook]
      simp only [hp, haspect, hd]
      simp [hrange]
    · intro h1 h2 h3
      have hrange : ¬ (d < e.minLength.getD 5 ∨ e.maxLength.getD 20 < d) := by omega
      unfold durationAllowed at h3
      rcases hcase : e.allowedDurations with _ | ds
      · rw [hcase] at h3; exact absurd trivial h3
      · rw [hcase] at h3
        have h4 := not_or.mp h3
        refine ⟨ds, rfl, ?_⟩
        unfold validateGenerate
        rw [hlook]
        simp only [hp, haspect, hd]
        simp [hrange, hcase, h4.1, h4.2]
  · decide

/-- Witness for C1: `runway-gen3a` accepts duration 10. -/
theorem generate_duration_validation_witness :
    validateGenerate
        { engineId := "runway-gen3a", prompt := some "a cat",
          aspect := some "16:9", durationRounded := some 10 }
      = .ok (runwayGen3aCfg, 10) :=
  (generate_duration_validation.1 _ runwayGen3aCfg 10 (by decide) (by decide)
      (Or.inl (by decide)) rfl).1 ⟨by decide, by decide, by decide⟩

/-- C2: in the openai branch an unrecognized or missing requested model/size
is silently replaced by the engine's configured default (the only pre-call
error of that branch is the missing-key 500, independent of model and size);
the gemini resolution likewise always snaps to a supported value; in
particular a `sora-2` request with size `"999x999"` (and an aspect ratio that
is not itself a supported size) is coerced to the default `"1280x720"`. -/
theorem optional_field_fallback :
    (∀ (e : EngineConfig) (req a : Option String),
      trimS (req.getD "") ∉ soraAllowedSizes e →
      trimS (a.getD "") ∉ soraAllowedSizes e →
      selectSoraSize e req a = soraDefaultSize e) ∧
    (∀ (e : EngineConfig) (req : Option String),
      trimS (req.getD "") ∉ soraAllowedModels e →
      selectSoraModel e req = soraDefaultModel e) ∧
    (∀ env : Env, openaiGenGate env = .ok () ∨
      openaiGenGate env = .error (500, "OpenAI API key not configured")) ∧
    (∀ (e : EngineConfig) (req : Option String),
      trimS (req.getD "") ∉ geminiAllowedModels e →
      selectGeminiModel e req = geminiDefaultModel e) ∧
    (∀ (e : EngineConfig) (effectiveSize : Option String),
      selectGeminiResolution e effectiveSize = "720p" ∨
      selectGeminiResolution e effectiveSize = "1080p") ∧
    soraDefaultSize sora2Cfg = "1280x720" ∧
    selectSoraSize sora2Cfg (some "999x999") (some "16:9") = "1280x720" := by
  refine ⟨?_, ?_, ?_, ?_, ?_, by decide, by decide⟩
  · intro e req a h1 h2
    simp [selectSoraSize, h1, h2]
  · intro e req h1
    simp [selectSoraModel, h1]
  · intro env
    by_cases h : optTruthy (env.openaiKey.map trimS)
    · exact Or.inl (by simp [openaiGenGate, h])
    · exact Or.inr (by simp [openaiGenGate, h])
  · intro e req h1
    simp [selectGeminiModel, h1]
  · intro e effectiveSize
    unfold selectGeminiResolution
    dsimp only
    exact Or.symm (ite_eq_or_str _ _ _)

/-- Witness for C2 at the `sora-2` engine with requested size `"999x999"`
and aspect ratio `"16:9"`. -/
theorem optional_field_fallback_witness :
    selectSoraSize sora2Cfg (some "999x999") (some "16:9") = soraDefaultSize sora2Cfg :=
  optional_field_fallback.1 sora2Cfg (some "999x999") (some "16:9") (by decide) (by decide)

/-- Counterexample to C6: the engine `pollo-v1-6` has provider `pollo`, and
with no credential configured at all the pollo-style generate branch still
proceeds to the outbound vendor call (`.ok ()`) instead of answering 500
without calling the vendor. -/
theorem missing_credential_counterexample :
    (List.lookup "pollo-v1-6" ENGINE_CONFIG).map (fun e => e.provider) = some "pollo" ∧
    generateGate envEmpty "pollo" (some "16:9") none = .ok () := by
  constructor
  · decide
  · rfl

/-- C6 (amended): for the runway, openai and gemini providers a missing (or
blank) server-side credential makes `/api/generate` answer 500 with the
provider's key-not-configured message before any outbound vendor call; the
pollo-style branch performs no such check. -/
theorem missing_credential_gate (env : Env) (a promptImage : Option String) :
    (optTruthy env.runwayKey = false →
      generateGate env "runway" a promptImage =
        .error (500, "Runway API key not configured")) ∧
    (optTruthy (env.openaiKey.map trimS) = false →
      generateGate env "openai" a promptImage =
        .error (500, "OpenAI API key not configured")) ∧
    (optTruthy env.geminiKey = false →
      generateGate env "gemini" a promptImage =
        .error (500, "Gemini API key not configured")) := by
  refine ⟨?_, ?_, ?_⟩ <;> intro h <;>
    simp [generateGate, runwayGenGate, openaiGenGate, geminiGenGate, h]

/-- Witness for C6 (amended) at the empty environment. -/
theorem missing_credential_gate_witness :
    generateGate envEmpty "runway" (some "16:9") none =
      .error (500, "Runway API key not configured") :=
  (missing_credential_gate envEmpty (some "16:9") none).1 (by decide)

/-- C9: polling a job id absent from the in-memory table answers 404 with
`{error:"Unknown job"}`, makes no outbound vendor call, and leaves the job
table unchanged. -/
theorem status_unknown_job (env : Env) (tbl : List (String × Job)) (id : String)
    (vr : VendorResp) (dlOk : Bool) (ts : Int) (base : String)
    (h : List.lookup id tbl = none) :
    (statusHandler env tbl id vr dlOk ts base).httpStatus = 404 ∧
    (statusHandler env tbl id vr dlOk ts base).errBody = some "Unknown job" ∧
    (statusHandler env tbl id vr dlOk ts base).table = tbl ∧
    (statusHandler env tbl id vr dlOk ts base).statusCalls = 0 := by
  simp [statusHandler, h]

/-- Witness for C9 on the empty job table. -/
theorem status_unknown_job_witness :
    (statusHandler envEmpty [] "missing" {} true 0 "downloads").httpStatus = 404 ∧
    (statusHandler envEmpty [] "missing" {} true 0 "downloads").errBody = some "Unknown job" ∧
    (statusHandler envEmpty [] "missing" {} true 0 "downloads").table = [] ∧
    (statusHandler envEmpty [] "missing" {} true 0 "downloads").statusCalls = 0 :=
  status_unknown_job envEmpty [] "missing" {} true 0 "downloads" rfl

lemma runwayUpdate_fields (j : Job) (d : RunwayData) :
    (runwayUpdate j d).provider = j.provider ∧ (runwayUpdate j d).engineId = j.engineId ∧
    (runwayUpdate j d).localPath = j.localPath ∧
    (runwayUpdate j d).status = mapRunwayStatus d.status ∧
    (runwayUpdate j d).prompt = j.prompt := by
  unfold runwayUpdate
  dsimp only
  split
  · simp
  · split <;> simp

lemma soraUpdate_fields (j : Job) (v : Option SoraVideoData) :
    (soraUpdate j v).provider = j.provider ∧ (soraUpdate j v).engineId = j.engineId ∧
    (soraUpdate j v).localPath = j.localPath ∧ (soraUpdate j v).prompt = j.prompt :=
  ⟨rfl, rfl, rfl, rfl⟩

lemma geminiUpdate_fields (j : Job) (d : GeminiData) :
    (geminiUpdate j d).provider = j.provider ∧ (geminiUpdate j d).engineId = j.engineId ∧
    (geminiUpdate j d).localPath = j.localPath ∧
    (geminiUpdate j d).status =
      (if d.done then
        (match d.errObj with
         | some _ => "failed"
         | none => "succeeded")
       else "running") := by
  unfold geminiUpdate
  dsimp only
  (repeat' split) <;> simp

lemma geminiStatus_mem (j : Job) (d : GeminiData) :
    (geminiUpdate j d).status ∈ (["queued", "running", "succeeded", "failed"] : List String) := by
  obtain ⟨_, _, _, hst⟩ := geminiUpdate_fields j d
  rw [hst]
  split
  · cases d.errObj <;> simp
  · simp

lemma polloUpdate_fields (j : Job) (d : PolloData) :
    (polloUpdate j d).provider = j.provider ∧ (polloUpdate j d).engineId = j.engineId ∧
    (polloUpdate j d).localPath = j.localPath ∧ (polloUpdate j d).status = d.status ∧
    (polloUpdate j d).aspect = j.aspect :=
  ⟨rfl, rfl, rfl, rfl, rfl⟩

/-- Counterexample to C7: for a runway job the directory directly beneath the
download dir is the engine id `runway-gen3a`, not the provider id `runway`
the claim names. -/
theorem download_path_provider_counterexample :
    jRunwaySample.provider = "runway" ∧
    (runwayDownloadSegments "downloads" jRunwaySample).get? 1 = some "runway-gen3a" ∧
    (runwayDownloadSegments "downloads" jRunwaySample).get? 1 ≠ some jRunwaySample.provider := by
  refine ⟨rfl, rfl, ?_⟩
  decide

/-- C7 (amended): a finished runway asset is written to
`{engineId}_{timestamp}.mp4` under the tree download-dir / engine id /
slugified prompt / aspect (with `:` replaced); a successful download in the
runway poll records exactly this path. -/
theorem download_path_shape (base : String) (j : Job) (ts : Int) :
    runwayDownloadSegments base j =
      [base, j.engineId, slugify (some j.prompt), replaceFirstColonS (jsOrS j.aspect "")] ∧
    runwayFullPath base j ts =
      pathJoin (runwayDownloadSegments base j ++ [j.engineId ++ "_" ++ toString ts ++ ".mp4"]) ∧
    (∀ (d : RunwayData),
      (runwayStep j d true ts base).2.downloadAttempted = true →
      (runwayStep j d true ts base).1.localPath =
        some (runwayFullPath base (runwayUpdate j d) ts)) := by
  refine ⟨rfl, rfl, ?_⟩
  intro d h
  unfold runwayStep at h ⊢
  dsimp only at h ⊢
  split at h
  next hc =>
    split at h
    next hv => simp at h
    next hv =>
      have hv' : optTruthy (runwayUpdate j d).videoUrl = true := by
        by_contra hx
        exact hv (by simpa using hx)
      simp [hc.1, hc.2, hv']
  next hc => simp at h

/-- Witness for C7 (amended): a succeeded runway response downloads to the
path computed from the updated job. -/
theorem download_path_shape_witness :
    (runwayStep jRunwaySample runwaySucceededData true 5 "downloads").1.localPath =
      some (runwayFullPath "downloads" (runwayUpdate jRunwaySample runwaySucceededData) 5) :=
  (download_path_shape "downloads" jRunwaySample 5).2.2 runwaySucceededData (by decide)

/-- Counterexample to C5: a pollo-style poll stores the raw vendor status
verbatim, so the recognized pollo value `"completed"` lands in `job.status`,
which is not one of `queued`/`running`/`succeeded`/`failed`. -/
theorem status_vocabulary_counterexample :
    (polloStep jPolloSample { status := "completed" } true 0 "downloads").1.status
      = "completed" ∧
    "completed" ∉ (["queued", "running", "succeeded", "failed"] : List String) := by
  constructor
  · rfl
  · decide

/-- C5 (amended): a default job record is created with status `queued`; a
gemini poll always stores one of the four lifecycle values; runway and openai
polls store the mapped vendor status, which is one of the four exactly for
the recognized vocabulary and otherwise the lowercased raw string; a
pollo-style poll stores the raw vendor status verbatim. -/
theorem status_vocabulary_amended :
    (∀ (jobId engineId prompt : String) (a : Option String) (seed : Option Int)
        (numericLength : Int) (provider : String) (rm rs : Option String) (createdAt : String),
      (mkDefaultJobRecord jobId engineId prompt a seed numericLength provider rm rs
        createdAt).status = "queued") ∧
    (∀ (j : Job) (d : GeminiData) (dlOk : Bool) (ts : Int) (base : String),
      (geminiStep j d dlOk ts base).1.status ∈
        (["queued", "running", "succeeded", "failed"] : List String)) ∧
    (∀ (j : Job) (d : RunwayData) (dlOk : Bool) (ts : Int) (base : String),
      (runwayStep j d dlOk ts base).1.status = mapRunwayStatus d.status) ∧
    (∀ s : Option String,
      mapRunwayStatus s ∈ (["queued", "running", "succeeded", "failed"] : List String) ∨
      mapRunwayStatus s = lowerS (upperS (jsOrS s ""))) ∧
    (∀ s : Option String,
      mapSoraStatus s ∈ (["queued", "running", "succeeded", "failed"] : List String) ∨
      mapSoraStatus s = lowerS (jsOrS s "")) ∧
    (∀ (j : Job) (d : PolloData) (dlOk : Bool) (ts : Int) (base : String),
      (polloStep j d dlOk ts base).1.status = d.status) := by
  refine ⟨?_, ?_, ?_, ?_, ?_, ?_⟩
  · intro jobId engineId prompt a seed numericLength provider rm rs createdAt
    rfl
  · intro j d dlOk ts base
    unfold geminiStep
    dsimp only
    (repeat' split) <;> simpa using geminiStatus_mem j d
  · intro j d dlOk ts base
    obtain ⟨_, _, _, hst, _⟩ := runwayUpdate_fields j d
    unfold runwayStep
    dsimp only
    (repeat' split) <;> simp [hst]
  · intro s
    unfold mapRunwayStatus
    dsimp only
    split
    · left; simp
    · split
      · left; simp
      · split
        · left; simp
        · split
          · left; simp
          · unfold jsOrS
            dsimp only
            split
            · left; simp
            · right; rfl
  · intro s
    unfold mapSoraStatus
    dsimp only
    split
    · left
      simp
    · split
      · left; simp
      · split
        · left; simp
        · split
          · left; simp
          · split
            · left; simp
            · right; rfl
  · intro j d dlOk ts base
    obtain ⟨_, _, _, hst, _⟩ := polloUpdate_fields j d
    unfold polloStep
    dsimp only
    (repeat' split) <;> simp [hst]

lemma optTruthy_some_ne {p : String} (h : p ≠ "") : optTruthy (some p) = true := by
  have he : p.isEmpty = false := by
    by_contra hx
    rw [Bool.not_eq_false] at hx
    exact h (by simpa [String.isEmpty_iff] using hx)
  simp [optTruthy, strTruthy, he]

/-- C3: a poll of a tracked runway/openai job makes exactly one outbound
vendor status request; a download is attempted only when the mapped status is
`succeeded`, a video URL resolved, and `localPath` is still null; once
`localPath` is set, a further poll attempts no download and leaves it
unchanged. -/
theorem poll_download_idempotent :
    (∀ (env : Env) (tbl : List (String × Job)) (id : String) (vr : VendorResp)
        (dlOk : Bool) (ts : Int) (base : String) (j : Job),
      List.lookup id tbl = some j → j.provider = "runway" →
      optTruthy env.runwayKey = true →
      (statusHandler env tbl id vr dlOk ts base).statusCalls = 1) ∧
    (∀ (env : Env) (tbl : List (String × Job)) (id : String) (vr : VendorResp)
        (dlOk : Bool) (ts : Int) (base : String) (j : Job),
      List.lookup id tbl = some j → j.provider = "openai" →
      optTruthy (env.openaiKey.map trimS) = true →
      (statusHandler env tbl id vr dlOk ts base).statusCalls = 1) ∧
    (∀ (j : Job) (d : RunwayData) (dlOk : Bool) (ts : Int) (base : String),
      (runwayStep j d dlOk ts base).2.downloadAttempted = true →
      (runwayStep j d dlOk ts base).1.status = "succeeded" ∧
      optTruthy (runwayStep j d dlOk ts base).1.videoUrl = true ∧
      optTruthy j.localPath = false) ∧
    (∀ (j : Job) (v : Option SoraVideoData) (dlOk : Bool) (ts : Int) (base : String),
      (soraStep j v dlOk ts base).2.downloadAttempted = true →
      (soraStep j v dlOk ts base).1.status = "succeeded" ∧
      optTruthy (soraStep j v dlOk ts base).1.videoUrl = true ∧
      optTruthy j.localPath = false) ∧
    (∀ (j : Job) (d : RunwayData) (dlOk : Bool) (ts : Int) (base : String) (p : String),
      j.localPath = some p → p ≠ "" →
      (runwayStep j d dlOk ts base).2.downloadAttempted = false ∧
      (runwayStep j d dlOk ts base).1.localPath = some p) ∧
    (∀ (j : Job) (v : Option SoraVideoData) (dlOk : Bool) (ts : Int) (base : String)
        (p : String),
      j.localPath = some p → p ≠ "" →
      (soraStep j v dlOk ts base).2.downloadAttempted = false ∧
      (soraStep j v dlOk ts base).1.localPath = some p) := by
  refine ⟨?_, ?_, ?_, ?_, ?_, ?_⟩
  · intro env tbl id vr dlOk ts base j h hp hk
    simp [statusHandler, h, hp, hk]
  · intro env tbl id vr dlOk ts base j h hp hk
    simp [statusHandler, h, hp, hk]
  · intro j d dlOk ts base h
    obtain ⟨_, _, hlp, hst, _⟩ := runwayUpdate_fields j d
    unfold runwayStep at h ⊢
    dsimp only at h ⊢
    split at h
    next hc =>
      split at h
      next hv => simp at h
      next hv =>
        have hv' : optTruthy (runwayUpdate j d).videoUrl = true := by
          by_contra hx
          exact hv (by simpa using hx)
        have hlp' : optTruthy j.localPath = false := by
          rw [← hlp]
          simpa using hc.2
        cases dlOk <;>
          exact ⟨by simp [hc.1, hc.2, hv'], by simp [hc.1, hc.2, hv'], hlp'⟩
    next hc => simp at h
  · intro j v dlOk ts base h
    obtain ⟨_, _, hlp, _⟩ := soraUpdate_fields j v
    unfold soraStep at h ⊢
    dsimp only at h ⊢
    split at h
    next hc =>
      have hlp' : optTruthy j.localPath = false := by
        rw [← hlp]
        simpa using hc.2.2
      cases dlOk <;>
        exact ⟨by simp [hc.1, hc.2.1, hc.2.2], by simp [hc.1, hc.2.1, hc.2.2], hlp'⟩
    next hc => simp at h
  · intro j d dlOk ts base p hp hne
    obtain ⟨_, _, hlp, _, _⟩ := runwayUpdate_fields j d
    have ht : optTruthy (runwayUpdate j d).localPath = true := by
      rw [hlp, hp]
      exact optTruthy_some_ne hne
    unfold runwayStep
    dsimp only
    rw [if_neg (by simp [ht])]
    simp [hlp, hp]
  · intro j v dlOk ts base p hp hne
    obtain ⟨_, _, hlp, _⟩ := soraUpdate_fields j v
    have ht : optTruthy (soraUpdate j v).localPath = true := by
      rw [hlp, hp]
      exact optTruthy_some_ne hne
    unfold soraStep
    dsimp only
    rw [if_neg (by simp [ht])]
    simp [hlp, hp]

/-- Witness for C3: polling the sample runway job with its key configured
makes one outbound request, and a job with a recorded local path is not
re-downloaded. -/
theorem poll_download_idempotent_witness :
    (statusHandler { runwayKey := some "k" } [("task-1", jRunwaySample)] "task-1" {}
        true 0 "downloads").statusCalls = 1 ∧
    (runwayStep jPolloSample runwaySucceededData true 0 "downloads").2.downloadAttempted
        = false ∧
    (runwayStep jPolloSample runwaySucceededData true 0 "downloads").1.localPath
        = some "/d/f.mp4" := by
  refine ⟨?_, ?_⟩
  · exact poll_download_idempotent.1 { runwayKey := some "k" } [("task-1", jRunwaySample)]
      "task-1" {} true 0 "downloads" jRunwaySample (by decide) rfl rfl
  · exact poll_download_idempotent.2.2.2.2.1 jPolloSample runwaySucceededData true 0
      "downloads" "/d/f.mp4" rfl (by decide)

/-- C8: no status poll of any provider branch ever changes the job's
`provider` or `engineId` fields. -/
theorem poll_frame_provider_engine :
    (∀ (j : Job) (d : RunwayData) (dlOk : Bool) (ts : Int) (base : String),
      (runwayStep j d dlOk ts base).1.provider = j.provider ∧
      (runwayStep j d dlOk ts base).1.engineId = j.engineId) ∧
    (∀ (j : Job) (v : Option SoraVideoData) (dlOk : Bool) (ts : Int) (base : String),
      (soraStep j v dlOk ts base).1.provider = j.provider ∧
      (soraStep j v dlOk ts base).1.engineId = j.engineId) ∧
    (∀ (j : Job) (d : GeminiData) (dlOk : Bool) (ts : Int) (base : String),
      (geminiStep j d dlOk ts base).1.provider = j.provider ∧
      (geminiStep j d dlOk ts base).1.engineId = j.engineId) ∧
    (∀ (j : Job) (d : PolloData) (dlOk : Bool) (ts : Int) (base : String),
      (polloStep j d dlOk ts base).1.provider = j.provider ∧
      (polloStep j d dlOk ts base).1.engineId = j.engineId) := by
  refine ⟨?_, ?_, ?_, ?_⟩
  · intro j d dlOk ts base
    obtain ⟨h1, h2, _, _, _⟩ := runwayUpdate_fields j d
    unfold runwayStep
    dsimp only
    (repeat' split) <;> simp [h1, h2]
  · intro j v dlOk ts base
    obtain ⟨h1, h2, _, _⟩ := soraUpdate_fields j v
    unfold soraStep
    dsimp only
    (repeat' split) <;> simp [h1, h2]
  · intro j d dlOk ts base
    obtain ⟨h1, h2, _, _⟩ := geminiUpdate_fields j d
    unfold geminiStep
    dsimp only
    (repeat' split) <;> simp [h1, h2]
  · intro j d dlOk ts base
    obtain ⟨h1, h2, _, _, _⟩ := polloUpdate_fields j d
    unfold polloStep
    dsimp only
    (repeat' split) <;> simp [h1, h2]
